import Mathlib

/-!
# Verification of the shopso backend discount engine

A shallow embedding of the discount subsystem of the shopso backend:

* `src/models/shop/Discount.js` — the discount schema, its `pre("save")`
  middleware (the Temporal State Evaluator) and its `code` index;
* `src/controllers/shop/discountController.js` — `createDiscount`,
  `updateDiscount`, `updateDiscountUsage` (the Usage Ledger) and
  `validateDiscountCode` (the Eligibility Validator).

Conventions of the embedding:

* Timestamps are integers (milliseconds since the epoch); `Date` comparisons
  in the source are numeric comparisons on these values.
* Money and percentage values are rationals.  Where the source can produce a
  JavaScript `NaN` (arithmetic on a missing `orderAmount` query parameter),
  values are modelled by `JsNum`: rationals extended with a NaN element that
  propagates through arithmetic and makes order comparisons false, exactly as
  in JavaScript.
* Fields of the schema that no verified property mentions (description,
  image, customerType, appliesTo, categories, products, oneTimeUse,
  combineWithOther, excludeSaleItems, the timestamps) are omitted from the
  record; no operation modelled here reads or writes them in a way any claim
  depends on.
* The document store is a list of discount documents; `findOne` / `findById`
  return the first matching document, `updateMany` / `findByIdAndUpdate`
  rewrite matching documents in place.
* Mongoose semantics respected by the embedding: `Model.create` and
  `document.save()` run the `pre("save")` middleware; the
  `findOneAndUpdate` family (`findByIdAndUpdate`) and `updateMany` do not.
-/

inductive DType where
  | percentage
  | fixed
  deriving DecidableEq, Repr

inductive DStatus where
  | active
  | upcoming
  | expired
  | paused
  deriving DecidableEq, Repr

/-- JavaScript numbers as they occur on the discount-validation paths:
either an ordinary (rational) number or `NaN`.  `NaN` propagates through
arithmetic; every order comparison against `NaN` is false. -/
inductive JsNum where
  | nan
  | num (q : ℚ)
  deriving DecidableEq, Repr

def jsMul : JsNum → JsNum → JsNum
  | JsNum.num a, JsNum.num b => JsNum.num (a * b)
  | _, _ => JsNum.nan

/-- Division by a nonzero numeric constant (the source only divides by
`100`, so the infinite quotients of JavaScript never arise). -/
def jsDivC : JsNum → ℚ → JsNum
  | JsNum.num a, c => JsNum.num (a / c)
  | JsNum.nan, _ => JsNum.nan

def jsSub : JsNum → JsNum → JsNum
  | JsNum.num a, JsNum.num b => JsNum.num (a - b)
  | _, _ => JsNum.nan

/-- `Math.max(0, x)`: `NaN` when `x` is `NaN`. -/
def jsMax0 : JsNum → JsNum
  | JsNum.num a => JsNum.num (max 0 a)
  | JsNum.nan => JsNum.nan

/-- `x > q` on JavaScript numbers: false when `x` is `NaN`. -/
def jsGtQ : JsNum → ℚ → Bool
  | JsNum.num a, q => decide (q < a)
  | JsNum.nan, _ => false

/-- `x < q` on JavaScript numbers: false when `x` is `NaN`. -/
def jsLtQ : JsNum → ℚ → Bool
  | JsNum.num a, q => decide (a < q)
  | JsNum.nan, _ => false

/-- The `orderAmount` query parameter of the validation route.  `absent`
covers an omitted or empty parameter (both are falsy and both parse to
`NaN`); `given v` is a nonempty string whose `parseFloat` is `v` (possibly
`NaN` for a non-numeric string).  A nonempty string is truthy. -/
inductive OrderParam where
  | absent
  | given (v : JsNum)
  deriving DecidableEq, Repr

def OrderParam.truthy : OrderParam → Bool
  | OrderParam.absent => false
  | OrderParam.given _ => true

/-- `parseFloat` of the raw parameter: `NaN` when absent/empty. -/
def OrderParam.parsed : OrderParam → JsNum
  | OrderParam.absent => JsNum.nan
  | OrderParam.given v => v

/-- A discount document (`discountSchema` in `Discount.js`), restricted to
the fields the verified properties mention.  `id` is the document id;
`usageLimit = none` is the schema's `null` (unlimited). -/
structure Discount where
  id : ℕ
  name : String
  code : String
  type : DType
  value : ℚ
  minOrder : ℚ
  maxDiscount : ℚ
  startDate : ℤ
  endDate : ℤ
  usageLimit : Option ℤ
  usedCount : ℤ
  remainingUses : Option ℤ
  status : DStatus
  revenueGenerated : ℚ
  ordersUsed : ℤ
  createdBy : ℕ
  deriving DecidableEq, Repr

/-- The `discountSchema.pre("save")` middleware (`Discount.js` lines
164-193), the Temporal State Evaluator: recompute `remainingUses` from the
usage limit and counter (`Math.max(0, usageLimit - usedCount)` when a limit
is set, `null` otherwise), then derive `status` from the dates against the
current time — unless the stored status is `paused`, which is left alone.
The two assignments of the source are independent (the status branch reads
only `status` and the dates), so they are expressed as one record update. -/
def preSave (now : ℤ) (d : Discount) : Discount :=
  { d with
    remainingUses :=
      match d.usageLimit with
      | some l => some (max 0 (l - d.usedCount))
      | none => none,
    status :=
      if d.status = DStatus.paused then DStatus.paused
      else if now < d.startDate then DStatus.upcoming
      else if now > d.endDate then DStatus.expired
      else DStatus.active }

/-- `Discount.findById`. -/
def findById (store : List Discount) (i : ℕ) : Option Discount :=
  store.find? (fun d => d.id == i)

/-- JavaScript's `.toUpperCase()` on the ASCII code strings of this
system (uppercase each character). -/
def jsToUpper (s : String) : String := String.mk (s.data.map Char.toUpper)

/-- `Discount.findOne({ code: code.toUpperCase(), createdBy: ownerId })`. -/
def findOneByCodeOwner (store : List Discount) (c : String) (owner : ℕ) :
    Option Discount :=
  store.find? (fun d => d.code == jsToUpper c && d.createdBy == owner)

/-- Write back one document by id (the store-side effect of
`findByIdAndUpdate` and of `document.save()`). -/
def replaceById (store : List Discount) (d : Discount) : List Discount :=
  store.map (fun x => if x.id == d.id then d else x)

/-- The JavaScript truthiness test
`discount.usageLimit && discount.usedCount >= discount.usageLimit` used by
both the validator and the usage handler: a `null` usage limit — and the
number `0`, which is falsy — disables the check. -/
def limitReached (d : Discount) : Bool :=
  match d.usageLimit with
  | some l => !(l == 0) && decide (l ≤ d.usedCount)
  | none => false

/-- The `data` payload attached to a response, as the source builds it:
rejections carry the relevant boundary value, a successful validation
carries the computed amounts, a successful usage update carries the new
counters. -/
inductive RespData where
  | nothing
  | withStart (startDate : ℤ)
  | withEnd (endDate : ℤ)
  | withMin (minOrder : ℚ)
  | valid (discountAmount finalAmount : JsNum)
  | usage (usedCount : ℤ) (remainingUses : Option ℤ) (revenueGenerated : ℚ)
  deriving DecidableEq, Repr

structure ApiResponse where
  httpStatus : ℕ
  success : Bool
  message : String
  payload : RespData
  deriving DecidableEq, Repr

/-- The `validateDates` helper (`discountController.js` lines 14-28); its
`new Date()` is the current time `now`. -/
def validateDates (now startD endD : ℤ) : Option String :=
  if startD > endD then some "End date must be after start date"
  else if endD < now then some "End date must be in the future"
  else none

/-- The discount/final amount computation of `validateDiscountCode`
(`discountController.js` lines 727-740), on the `parseFloat` of the
`orderAmount` parameter. -/
def computeAmounts (d : Discount) (orderTotal : JsNum) : JsNum × JsNum :=
  let discountAmount :=
    if d.type = DType.percentage then
      let raw := jsDivC (jsMul orderTotal (JsNum.num d.value)) 100
      if 0 < d.maxDiscount ∧ jsGtQ raw d.maxDiscount = true then
        JsNum.num d.maxDiscount
      else raw
    else JsNum.num d.value
  (discountAmount, jsMax0 (jsSub orderTotal discountAmount))

/-- `validateDiscountCode` (`discountController.js` lines 652-762),
`GET /api/discounts/validate/:code?orderAmount=`.  The handler only reads
the store (a `findOne` and two populates), so it hands the store back
unchanged.  The source's minimum-order message interpolates the amount into
the string; the amount is carried here in the payload next to the constant
message prefix. -/
def validateDiscountCode (now : ℤ) (store : List Discount) (ownerId : ℕ)
    (code : String) (orderAmount : OrderParam) : ApiResponse × List Discount :=
  if code = "" then
    (⟨400, false, "Discount code is required", RespData.nothing⟩, store)
  else
    match findOneByCodeOwner store code ownerId with
    | none => (⟨404, false, "Discount code not found", RespData.nothing⟩, store)
    | some d =>
      if now < d.startDate then
        (⟨400, false, "Discount is not active yet", RespData.withStart d.startDate⟩, store)
      else if now > d.endDate then
        (⟨400, false, "Discount has expired", RespData.withEnd d.endDate⟩, store)
      else if d.status ≠ DStatus.active then
        (⟨400, false, "Discount is not active", RespData.nothing⟩, store)
      else if limitReached d then
        (⟨400, false, "Discount usage limit reached", RespData.nothing⟩, store)
      else if orderAmount.truthy && decide (0 < d.minOrder)
          && jsLtQ orderAmount.parsed d.minOrder then
        (⟨400, false, "Minimum order amount is $", RespData.withMin d.minOrder⟩, store)
      else
        let p := computeAmounts d orderAmount.parsed
        (⟨200, true, "Discount code is valid", RespData.valid p.1 p.2⟩, store)

/-- The creation request body after the controller's parsing (lines 60-78
and 134-154 of the controller): required fields are present by typing, the
numeric fields are already `parseFloat`/`parseInt` results, and a falsy
`usageLimit` has been coerced to `null`. -/
structure CreateInput where
  name : String
  type : DType
  value : ℚ
  minOrder : ℚ := 0
  maxDiscount : ℚ := 0
  startDate : ℤ
  endDate : ℤ
  usageLimit : Option ℤ := none

/-- `createDiscount` (`discountController.js` lines 57-195) for a
caller-supplied code.  (The random-code generation branch taken when no code
is supplied is not modelled; every uniqueness claim is about supplied
codes.)  Order of checks as in the source: date validation first, then the
application-level duplicate check — scoped to the requesting owner (lines
101-113).  The subsequent `Discount.create` insert is additionally subject
to the schema-level unique index on `code` (`unique: true`, `Discount.js`
line 14), which is global: an insert whose code already exists for ANY
owner raises a duplicate-key error, caught by the handler's catch block as
a 500 "Error creating discount".  `Discount.create` runs the `pre("save")`
middleware on the new document. -/
def createDiscount (now : ℤ) (store : List Discount) (owner : ℕ)
    (codeParam : String) (input : CreateInput) (freshId : ℕ) :
    ApiResponse × List Discount :=
  match validateDates now input.startDate input.endDate with
  | some msg => (⟨400, false, msg, RespData.nothing⟩, store)
  | none =>
    if store.any (fun d => d.code == jsToUpper codeParam && d.createdBy == owner) then
      (⟨400, false, "Discount code already exists for your shop", RespData.nothing⟩, store)
    else if store.any (fun d => d.code == jsToUpper codeParam) then
      (⟨500, false, "Error creating discount", RespData.nothing⟩, store)
    else
      let doc : Discount :=
        { id := freshId, name := input.name, code := jsToUpper codeParam,
          type := input.type, value := input.value, minOrder := input.minOrder,
          maxDiscount := input.maxDiscount, startDate := input.startDate,
          endDate := input.endDate, usageLimit := input.usageLimit,
          usedCount := 0, remainingUses := none, status := DStatus.active,
          revenueGenerated := 0, ordersUsed := 0, createdBy := owner }
      (⟨201, true, "Discount created successfully", RespData.nothing⟩,
        store ++ [preSave now doc])

/-- An update request body, restricted to the modelled fields.  A field is
`some _` exactly when the corresponding key is present in `req.body` — and
`updateDiscount` copies EVERY key of the body into the `$set` document
(`const updateData = { ...req.body }`, line 350), including `createdBy` and
the usage counters.  For `usageLimit` the inner option is the
already-coerced value (`parseInt` result, or `null` for a falsy value). -/
structure UpdateBody where
  name : Option String := none
  value : Option ℚ := none
  minOrder : Option ℚ := none
  maxDiscount : Option ℚ := none
  startDate : Option ℤ := none
  endDate : Option ℤ := none
  usageLimit : Option (Option ℤ) := none
  status : Option DStatus := none
  createdBy : Option ℕ := none
  usedCount : Option ℤ := none
  ordersUsed : Option ℤ := none
  revenueGenerated : Option ℚ := none

/-- The `$set` document of `updateDiscount` applied by `findByIdAndUpdate`
(lines 420-427): every field present in the body is written over the stored
document.  `findByIdAndUpdate` belongs to the `findOneAndUpdate` family and
therefore does NOT run the `pre("save")` middleware: no evaluator runs
here. -/
def applyUpdate (b : UpdateBody) (d : Discount) : Discount :=
  { d with
    name := b.name.getD d.name,
    value := b.value.getD d.value,
    minOrder := b.minOrder.getD d.minOrder,
    maxDiscount := b.maxDiscount.getD d.maxDiscount,
    startDate := b.startDate.getD d.startDate,
    endDate := b.endDate.getD d.endDate,
    usageLimit := b.usageLimit.getD d.usageLimit,
    status := b.status.getD d.status,
    createdBy := b.createdBy.getD d.createdBy,
    usedCount := b.usedCount.getD d.usedCount,
    ordersUsed := b.ordersUsed.getD d.ordersUsed,
    revenueGenerated := b.revenueGenerated.getD d.revenueGenerated }

/-- `updateDiscount` (`discountController.js` lines 330-456),
`PUT /api/discounts/:id`: load, ownership check, date validation when a
date is supplied (against the stored value for the missing one), then
`findByIdAndUpdate` with the whole body. -/
def updateDiscount (now : ℤ) (store : List Discount) (requester : ℕ) (i : ℕ)
    (b : UpdateBody) : ApiResponse × List Discount :=
  match findById store i with
  | none => (⟨404, false, "Discount not found", RespData.nothing⟩, store)
  | some d =>
    if d.createdBy ≠ requester then
      (⟨403, false, "You do not own this discount", RespData.nothing⟩, store)
    else if b.startDate.isSome || b.endDate.isSome then
      match validateDates now (b.startDate.getD d.startDate) (b.endDate.getD d.endDate) with
      | some msg => (⟨400, false, msg, RespData.nothing⟩, store)
      | none =>
        (⟨200, true, "Discount updated successfully", RespData.nothing⟩,
          replaceById store (applyUpdate b d))
    else
      (⟨200, true, "Discount updated successfully", RespData.nothing⟩,
        replaceById store (applyUpdate b d))

/-- The successful write-back of `updateDiscountUsage`: increment
`usedCount`, `ordersUsed` and `revenueGenerated` on the loaded document and
`save()` it — and `save()` runs the `pre("save")` evaluator. -/
def usageCommit (now : ℤ) (d : Discount) (amt : ℚ) : Discount :=
  preSave now
    { d with usedCount := d.usedCount + 1, ordersUsed := d.ordersUsed + 1,
             revenueGenerated := d.revenueGenerated + amt }

/-- `updateDiscountUsage` (`discountController.js` lines 507-574),
`PATCH /api/discounts/:id/use`, the Usage Ledger.  Body parameters are
`none` when missing or falsy; `orderAmount` is modelled as an
already-parsed rational (a non-numeric body string would drive
`revenueGenerated` to `NaN` and fail schema validation on save — no claim
exercises that path).  The temporal/status checks are the source's single
combined test rejecting with one message; the limit check mirrors the
validator's. -/
def updateDiscountUsage (now : ℤ) (store : List Discount) (i : ℕ)
    (orderId : Option ℕ) (orderAmount : Option ℚ) : ApiResponse × List Discount :=
  if orderId.isNone || orderAmount.isNone then
    (⟨400, false, "Order ID and amount are required", RespData.nothing⟩, store)
  else
    match findById store i with
    | none => (⟨404, false, "Discount not found", RespData.nothing⟩, store)
    | some d =>
      if now < d.startDate ∨ now > d.endDate ∨ d.status ≠ DStatus.active then
        (⟨400, false, "Discount is not active", RespData.nothing⟩, store)
      else if limitReached d then
        (⟨400, false, "Discount usage limit reached", RespData.nothing⟩, store)
      else
        let d2 := usageCommit now d (orderAmount.getD 0)
        (⟨200, true, "Discount usage updated",
            RespData.usage d2.usedCount d2.remainingUses d2.revenueGenerated⟩,
          replaceById store d2)

/-!
## Specification-side definitions

`validateSpecC4` below is deliberately written from the words of claim C4
(the fixed check order with typed rejections), to be compared with the
source-derived `validateDiscountCode`.
-/

/-- Typed outcome of the validation chain as claim C4 states it. -/
inductive VSpec where
  | NotFound
  | NotYetActive (startDate : ℤ)
  | Expired (endDate : ℤ)
  | Inactive
  | LimitReached
  | BelowMinimum (minOrder : ℚ)
  | Accepted (d : Discount)
  deriving DecidableEq, Repr

/-- Claim C4's step 5 condition: "usageLimit set and usedCount >=
usageLimit" (no truthiness subtlety: any set limit counts). -/
def specLimitReached (d : Discount) : Bool :=
  match d.usageLimit with
  | some l => decide (l ≤ d.usedCount)
  | none => false

/-- The validation chain exactly as claim C4 states it: fixed order,
short-circuit on first failure, each rejection typed and carrying the
relevant boundary value. -/
def validateSpecC4 (now : ℤ) (store : List Discount) (ownerId : ℕ)
    (code : String) (orderAmount : ℚ) : VSpec :=
  match findOneByCodeOwner store code ownerId with
  | none => VSpec.NotFound
  | some d =>
    if now < d.startDate then VSpec.NotYetActive d.startDate
    else if now > d.endDate then VSpec.Expired d.endDate
    else if d.status ≠ DStatus.active then VSpec.Inactive
    else if specLimitReached d then VSpec.LimitReached
    else if 0 < d.minOrder ∧ orderAmount < d.minOrder then
      VSpec.BelowMinimum d.minOrder
    else VSpec.Accepted d

/-- Rendering of each typed outcome as the HTTP response the source
produces for it. -/
def specRender (orderAmount : ℚ) : VSpec → ApiResponse
  | VSpec.NotFound => ⟨404, false, "Discount code not found", RespData.nothing⟩
  | VSpec.NotYetActive s => ⟨400, false, "Discount is not active yet", RespData.withStart s⟩
  | VSpec.Expired e => ⟨400, false, "Discount has expired", RespData.withEnd e⟩
  | VSpec.Inactive => ⟨400, false, "Discount is not active", RespData.nothing⟩
  | VSpec.LimitReached => ⟨400, false, "Discount usage limit reached", RespData.nothing⟩
  | VSpec.BelowMinimum m => ⟨400, false, "Minimum order amount is $", RespData.withMin m⟩
  | VSpec.Accepted d =>
    let p := computeAmounts d (JsNum.num orderAmount)
    ⟨200, true, "Discount code is valid", RespData.valid p.1 p.2⟩

/-!
## Interleaving model for concurrent usage recording

`updateDiscountUsage` awaits between its `findById` read and its `save()`
write-back, so two concurrent calls on the same discount can both perform
their read before either write lands.  Each call checks eligibility and
builds its write against its own snapshot, exactly as the handler does.
-/

/-- The eligibility test of `updateDiscountUsage` on one snapshot. -/
def usagePasses (now : ℤ) (d : Discount) : Bool :=
  !(decide (now < d.startDate) || decide (now > d.endDate)
      || decide (d.status ≠ DStatus.active)) && !(limitReached d)

/-- Two concurrent `updateDiscountUsage` calls (same discount, same
amount) under the schedule read-1, read-2, write-1, write-2: both calls
read the same snapshot `d0`, decide on it, and each successful call saves
the document built from its own snapshot.  Returns whether each call
succeeded and the final store. -/
def twoInterleavedUsages (now : ℤ) (store : List Discount) (i : ℕ) (amt : ℚ) :
    (Bool × Bool) × List Discount :=
  match findById store i with
  | none => ((false, false), store)
  | some d0 =>
    if usagePasses now d0 then
      let s1 := replaceById store (usageCommit now d0 amt)
      ((true, true), replaceById s1 (usageCommit now d0 amt))
    else ((false, false), store)

/-!
## Sample documents used by witnesses and counterexamples
-/

/-- An active percentage discount of owner 1, window 0 to 100, limit 3. -/
def dSample : Discount :=
  { id := 1, name := "Summer sale", code := "SAVE10", type := DType.percentage,
    value := 10, minOrder := 0, maxDiscount := 5, startDate := 0, endDate := 100,
    usageLimit := some 3, usedCount := 0, remainingUses := some 3,
    status := DStatus.active, revenueGenerated := 0, ordersUsed := 0, createdBy := 1 }

/-- An active percentage discount with a positive minimum order. -/
def dMinOrder : Discount :=
  { id := 2, name := "Big spender", code := "BIG50", type := DType.percentage,
    value := 50, minOrder := 40, maxDiscount := 0, startDate := 0, endDate := 100,
    usageLimit := none, usedCount := 0, remainingUses := none,
    status := DStatus.active, revenueGenerated := 0, ordersUsed := 0, createdBy := 1 }

/-- An unlimited discount of owner 2, used by update counterexamples. -/
def dPlain : Discount :=
  { id := 3, name := "Plain", code := "PLAIN", type := DType.fixed,
    value := 4, minOrder := 0, maxDiscount := 0, startDate := 0, endDate := 100,
    usageLimit := none, usedCount := 0, remainingUses := none,
    status := DStatus.active, revenueGenerated := 0, ordersUsed := 0, createdBy := 2 }

/-- A discount whose window has elapsed while its stored status is still
`active` (stale, as after any lapse of time with no intervening save). -/
def dExp : Discount :=
  { id := 4, name := "Old deal", code := "EXP1", type := DType.fixed,
    value := 5, minOrder := 0, maxDiscount := 0, startDate := 0, endDate := 10,
    usageLimit := none, usedCount := 0, remainingUses := none,
    status := DStatus.active, revenueGenerated := 0, ordersUsed := 0, createdBy := 1 }

/-- A fresh single-use discount (usage limit 1, never used). -/
def dFresh : Discount :=
  { id := 7, name := "One shot", code := "ONCE", type := DType.fixed,
    value := 5, minOrder := 0, maxDiscount := 0, startDate := 0, endDate := 100,
    usageLimit := some 1, usedCount := 0, remainingUses := some 1,
    status := DStatus.active, revenueGenerated := 0, ordersUsed := 0, createdBy := 1 }

/-- A fixed discount worth more than the order, for the clamped-at-zero
witness. -/
def dFixed20 : Discount :=
  { id := 9, name := "Flat twenty", code := "FLAT20", type := DType.fixed,
    value := 20, minOrder := 0, maxDiscount := 0, startDate := 0, endDate := 100,
    usageLimit := none, usedCount := 0, remainingUses := none,
    status := DStatus.active, revenueGenerated := 0, ordersUsed := 0, createdBy := 1 }

/-- Owner 1's document holding code SAVE10, for the uniqueness claim. -/
def dOwner1Save10 : Discount :=
  { id := 10, name := "A promo", code := "SAVE10", type := DType.fixed,
    value := 5, minOrder := 0, maxDiscount := 0, startDate := 0, endDate := 100,
    usageLimit := none, usedCount := 0, remainingUses := none,
    status := DStatus.active, revenueGenerated := 0, ordersUsed := 0, createdBy := 1 }

/-- A creation request used by the uniqueness theorems. -/
def inputB : CreateInput :=
  { name := "B promo", type := DType.fixed, value := 5, startDate := 0, endDate := 100 }

/-!
## Helper lemmas
-/

/-- The Temporal State Evaluator is idempotent: running the pre-save hook
twice at the same instant is the same as running it once. -/
theorem preSave_idem (now : ℤ) (d : Discount) :
    preSave now (preSave now d) = preSave now d := by
  unfold preSave
  by_cases hp : d.status = DStatus.paused
  · simp [hp]
  · simp only [hp, if_false, reduceIte]
    split_ifs <;> simp_all


theorem findById_cons (x : Discount) (xs : List Discount) (i : ℕ) :
    findById (x :: xs) i = if x.id = i then some x else findById xs i := by
  by_cases h : x.id = i <;> simp [findById, List.find?_cons, h]

theorem replaceById_cons (x : Discount) (xs : List Discount) (e : Discount) :
    replaceById (x :: xs) e = (if x.id = e.id then e else x) :: replaceById xs e := by
  by_cases h : x.id = e.id <;> simp [replaceById, h]

/-- Writing back a changed version of the document found under an id makes
the subsequent lookup of that id return the changed version. -/
theorem findById_replaceById (store : List Discount) (i : ℕ) (d e : Discount)
    (hfind : findById store i = some d) (hid : e.id = d.id) :
    findById (replaceById store e) i = some e := by
  have hdi : d.id = i := by
    have h := List.find?_some hfind
    simpa using h
  induction store with
  | nil => simp [findById] at hfind
  | cons x xs ih =>
    rw [findById_cons] at hfind
    rw [replaceById_cons, findById_cons]
    by_cases hx : x.id = i
    · rw [if_pos hx] at hfind
      have hxd : x = d := by injection hfind
      have hxe : x.id = e.id := by rw [hxd, hid]
      have hei : e.id = i := by rw [hid, hdi]
      simp [hx, hxe, hei]
    · rw [if_neg hx] at hfind
      have hxe : ¬ x.id = e.id := by
        intro hcontra
        exact hx (by rw [hcontra, hid, hdi])
      simp only [if_neg hxe, if_neg hx]
      exact ih hfind

/-!
## Claim C1 — the pre-save evaluator's postcondition
-/

/-- C1: on every save of a discount document the pre-save evaluator keeps a
`paused` status sticky (the saved status is `paused` exactly when the
stored status was `paused`, so a pause survives saves of unrelated
fields); otherwise the saved status is `upcoming` when `now < startDate`,
`expired` when `now > endDate`, and `active` otherwise; and the saved
`remainingUses` is `max 0 (usageLimit - usedCount)` when `usageLimit` is
set and `null` otherwise. -/
theorem c1_presave_status_and_remaining (now : ℤ) (d : Discount) :
    ((preSave now d).status = DStatus.paused ↔ d.status = DStatus.paused)
    ∧ ((preSave now d).status =
        if d.status = DStatus.paused then DStatus.paused
        else if now < d.startDate then DStatus.upcoming
        else if now > d.endDate then DStatus.expired
        else DStatus.active)
    ∧ ((preSave now d).remainingUses =
        match d.usageLimit with
        | some l => some (max 0 (l - d.usedCount))
        | none => none) := by
  refine ⟨?_, rfl, rfl⟩
  unfold preSave
  by_cases hp : d.status = DStatus.paused
  · simp [hp]
  · simp only [hp, if_false, reduceIte]
    split_ifs <;> simp_all

/-!
## Claim C2 — which persists run the evaluator
-/

/-- C2 counterexample: the owner update (PUT /discounts/:id) is a write of
a Discount record into the repository, yet the persisted document is NOT
re-evaluated: at `now = 20` the stored window of `dExp` (0..10) has
elapsed, so the evaluator would flip the stale `active` status to
`expired`, but the document persisted by the update (of the unrelated
`name` field) keeps `active` — one further evaluator run would change it.
`findByIdAndUpdate` does not run the `pre("save")` middleware. -/
theorem c2_counterexample :
    (updateDiscount 20 [dExp] 1 4 { name := some "renamed" }).1.success = true
    ∧ findById (updateDiscount 20 [dExp] 1 4 { name := some "renamed" }).2 4
        = some { dExp with name := "renamed" }
    ∧ preSave 20 { dExp with name := "renamed" } ≠ { dExp with name := "renamed" } := by
  decide

/-- C2 amended: the persists that go through `Model.create` or
`document.save()` — creation and usage recording — do run the Temporal
State Evaluator immediately before persistence: the document they write is
a fixpoint of the evaluator at the instant of the save.  The owner update
path persists via `findByIdAndUpdate` and bypasses the evaluator (see the
counterexample). -/
theorem c2_amended_save_paths_run_evaluator
    (now : ℤ) (store : List Discount) (owner : ℕ) (cp : String)
    (input : CreateInput) (freshId : ℕ)
    (storeU : List Discount) (iU : ℕ) (oid : Option ℕ) (amt : Option ℚ)
    (hc : (createDiscount now store owner cp input freshId).1.success = true)
    (hu : (updateDiscountUsage now storeU iU oid amt).1.success = true) :
    (∃ p, (createDiscount now store owner cp input freshId).2 = store ++ [p]
        ∧ preSave now p = p)
    ∧ (∃ p, (updateDiscountUsage now storeU iU oid amt).2 = replaceById storeU p
        ∧ preSave now p = p) := by
  constructor
  · unfold createDiscount at hc ⊢
    cases hvd : validateDates now input.startDate input.endDate with
    | some msg => simp [hvd] at hc
    | none =>
      simp only [hvd] at hc ⊢
      split_ifs at hc ⊢
      exact ⟨_, rfl, preSave_idem _ _⟩
  · unfold updateDiscountUsage at hu ⊢
    split_ifs at hu ⊢
    cases hfind : findById storeU iU with
    | none => simp [hfind] at hu
    | some d =>
      simp only [hfind] at hu ⊢
      split_ifs at hu ⊢
      exact ⟨_, rfl, by unfold usageCommit; exact preSave_idem _ _⟩

/-- Witness for the amended C2 at concrete inputs: a successful creation on
the empty store and a successful usage recording on `[dSample]`. -/
theorem c2_amended_witness :
    (∃ p, (createDiscount 5 [] 1 "NEW1" inputB 20).2 = [] ++ [p] ∧ preSave 5 p = p)
    ∧ (∃ p, (updateDiscountUsage 5 [dSample] 1 (some 1) (some 30)).2
          = replaceById [dSample] p ∧ preSave 5 p = p) :=
  c2_amended_save_paths_run_evaluator 5 [] 1 "NEW1" inputB 20 [dSample] 1
    (some 1) (some 30) (by decide) (by decide)

/-!
## Claim C5 — validation is read-only
-/

/-- C5 counterexample (to the clause "only recordUsage mutates usage
counters"): the owner update copies every key of the request body into the
`$set` document, so a PUT whose body contains `usedCount` rewrites the
usage counter — here from 0 to 7 — without any call to the usage route. -/
theorem c5_counterexample :
    (updateDiscount 5 [dPlain] 2 3 { usedCount := some 7 }).1.success = true
    ∧ findById (updateDiscount 5 [dPlain] 2 3 { usedCount := some 7 }).2 3
        = some { dPlain with usedCount := 7 }
    ∧ dPlain.usedCount = 0 := by
  decide

/-- C5 amended: `validateDiscountCode` never mutates the store — for every
input the store it hands back is the input store (so in particular every
stored `usedCount` is unchanged) — and a repeated validation call on the
resulting state returns the same result.  The clause "only recordUsage
mutates usage counters" fails: an owner update whose body contains counter
fields also rewrites them (see the counterexample). -/
theorem c5_amended_validate_never_mutates (now : ℤ) (store : List Discount)
    (ownerId : ℕ) (code : String) (oa : OrderParam) :
    (validateDiscountCode now store ownerId code oa).2 = store
    ∧ validateDiscountCode now (validateDiscountCode now store ownerId code oa).2
        ownerId code oa = validateDiscountCode now store ownerId code oa := by
  have hframe : (validateDiscountCode now store ownerId code oa).2 = store := by
    unfold validateDiscountCode
    by_cases hc : code = ""
    · simp [hc]
    · rw [if_neg hc]
      cases hfind : findOneByCodeOwner store code ownerId with
      | none => rfl
      | some d =>
        dsimp only
        split_ifs <;> rfl
  exact ⟨hframe, by rw [hframe]⟩

/-!
## Claim C3 — the discount amount formulas
-/

/-- The discount amount as claim C3 words it (specification-side
definition): percentage → `orderAmount * value / 100`, clamped down to
`maxDiscount` when `maxDiscount > 0`; fixed → `value`, no clamping. -/
def discountAmountSpec (d : Discount) (orderAmount : ℚ) : ℚ :=
  match d.type with
  | DType.percentage =>
    if 0 < d.maxDiscount then min (orderAmount * d.value / 100) d.maxDiscount
    else orderAmount * d.value / 100
  | DType.fixed => d.value

/-- C3: for a discount passing every eligibility check with a supplied
numeric `orderAmount`, the validator succeeds with the claimed
`discountAmount` (percentage: `orderAmount * value / 100` clamped down to
`maxDiscount` when `maxDiscount > 0`; fixed: `value`, unclamped) and
`finalAmount = max 0 (orderAmount - discountAmount)`, which is never
negative. -/
theorem c3_amount_formulas (now : ℤ) (store : List Discount) (ownerId : ℕ)
    (code : String) (a : ℚ) (d : Discount)
    (hc : code ≠ "")
    (hfind : findOneByCodeOwner store code ownerId = some d)
    (h1 : ¬ now < d.startDate) (h2 : ¬ now > d.endDate)
    (h3 : d.status = DStatus.active) (h4 : limitReached d = false)
    (h5 : ¬ (0 < d.minOrder ∧ a < d.minOrder)) :
    (validateDiscountCode now store ownerId code (OrderParam.given (JsNum.num a))).1
      = ⟨200, true, "Discount code is valid",
          RespData.valid (JsNum.num (discountAmountSpec d a))
            (JsNum.num (max 0 (a - discountAmountSpec d a)))⟩
    ∧ 0 ≤ max 0 (a - discountAmountSpec d a) := by
  refine ⟨?_, le_max_left 0 _⟩
  unfold validateDiscountCode
  rw [if_neg hc, hfind]
  dsimp only
  rw [if_neg h1, if_neg h2, if_neg (by simp [h3]), if_neg (by simp [h4])]
  have hmin : (OrderParam.truthy (OrderParam.given (JsNum.num a))
      && decide (0 < d.minOrder)
      && jsLtQ (OrderParam.parsed (OrderParam.given (JsNum.num a))) d.minOrder) = false := by
    simp only [OrderParam.truthy, OrderParam.parsed, jsLtQ, Bool.true_and,
      Bool.and_eq_false_iff, decide_eq_false_iff_not]
    by_cases hm : 0 < d.minOrder
    · right; intro hcontra; exact h5 ⟨hm, hcontra⟩
    · left; exact hm
  rw [if_neg (by simp [hmin])]
  unfold computeAmounts discountAmountSpec
  cases htype : d.type with
  | fixed =>
    simp only [htype, OrderParam.parsed, jsSub, jsMax0, reduceCtorEq, if_false]
  | percentage =>
    simp only [htype, OrderParam.parsed, jsMul, jsDivC, jsGtQ, jsSub, jsMax0, if_true, reduceIte]
    by_cases hmd : 0 < d.maxDiscount
    · by_cases hgt : d.maxDiscount < a * d.value / 100
      · rw [if_pos ⟨hmd, by simpa using hgt⟩]
        rw [if_pos hmd, min_eq_right (le_of_lt hgt)]
      · rw [if_neg (by simp [hgt]), if_pos hmd, min_eq_left (not_lt.mp hgt)]
    · rw [if_neg (by simp [hmd]), if_neg hmd]

/-- Witness for C3: `dSample` (percentage 10, maxDiscount 5) at order
amount 100 — the clamp applies and the final amount is 95. -/
theorem c3_witness :
    ((validateDiscountCode 5 [dSample] 1 "SAVE10" (OrderParam.given (JsNum.num 100))).1
        = ⟨200, true, "Discount code is valid",
            RespData.valid (JsNum.num (discountAmountSpec dSample 100))
              (JsNum.num (max 0 (100 - discountAmountSpec dSample 100)))⟩)
    ∧ 0 ≤ max 0 ((100 : ℚ) - discountAmountSpec dSample 100) :=
  c3_amount_formulas 5 [dSample] 1 "SAVE10" 100 dSample (by decide) (by decide)
    (by decide) (by decide) (by decide) (by decide) (by decide)

/-!
## Claim C4 — fixed check order with typed rejections
-/

/-- C4: with a supplied numeric `orderAmount`, `validateDiscountCode`
implements exactly the claim's check chain — (1) owner-scoped lookup of the
uppercased code, else NotFound; (2) `now < startDate` → NotYetActive with
`startDate`; (3) `now > endDate` → Expired with `endDate`; (4) status not
active → Inactive; (5) usage limit set and `usedCount >= usageLimit` →
LimitReached; (6) `minOrder > 0` and `orderAmount < minOrder` →
BelowMinimum with `minOrder` — in this order, short-circuiting on the first
failure.  The hypothesis `hwf` is the schema invariant `usageLimit >= 1 or
null` (the controller coerces every falsy limit to null and the schema
enforces a minimum of 1), under which the source's truthiness test agrees
with the claim's "set" test. -/
theorem c4_validate_check_order (now : ℤ) (store : List Discount) (ownerId : ℕ)
    (code : String) (a : ℚ)
    (hc : code ≠ "")
    (hwf : ∀ d ∈ store, d.usageLimit ≠ some 0) :
    (validateDiscountCode now store ownerId code (OrderParam.given (JsNum.num a))).1
      = specRender a (validateSpecC4 now store ownerId code a) := by
  unfold validateDiscountCode validateSpecC4
  rw [if_neg hc]
  cases hfind : findOneByCodeOwner store code ownerId with
  | none => rfl
  | some d =>
    have hd : d ∈ store := List.mem_of_find?_eq_some hfind
    have hlim : limitReached d = specLimitReached d := by
      have h0 : d.usageLimit ≠ some 0 := hwf d hd
      unfold limitReached specLimitReached
      cases hl : d.usageLimit with
      | none => rfl
      | some l =>
        have hne : (l == 0) = false := by
          simp only [beq_eq_false_iff_ne, ne_eq]
          intro h
          exact h0 (by rw [hl, h])
        simp [hne]
    have hmin : (OrderParam.truthy (OrderParam.given (JsNum.num a))
        && decide (0 < d.minOrder)
        && jsLtQ (OrderParam.parsed (OrderParam.given (JsNum.num a))) d.minOrder)
        = decide (0 < d.minOrder ∧ a < d.minOrder) := by
      by_cases hm1 : 0 < d.minOrder <;> by_cases hm2 : a < d.minOrder <;>
        simp [OrderParam.truthy, OrderParam.parsed, jsLtQ, hm1, hm2]
    dsimp only
    rw [hlim, hmin]
    split_ifs with g1 g2 g3 g4 g5 <;>
      simp_all [specRender, OrderParam.parsed, decide_eq_true_eq]

/-- Witness for C4 at a concrete input: `dSample` looked up by its code
with order amount 100. -/
theorem c4_witness :
    (validateDiscountCode 5 [dSample] 1 "SAVE10" (OrderParam.given (JsNum.num 100))).1
      = specRender 100 (validateSpecC4 5 [dSample] 1 "SAVE10" 100) :=
  c4_validate_check_order 5 [dSample] 1 "SAVE10" 100 (by decide) (by decide)

/-!
## Claim C10 — missing orderAmount: min-order check skipped, NaN success
-/

/-- C10: when the `orderAmount` query parameter is absent (or the empty
string), a discount that passes the temporal, status and limit checks skips
the minimum-order check even though `minOrder > 0`, and for a
percentage-type discount the call succeeds (HTTP 200) with `discountAmount`
and `finalAmount` both `NaN` instead of rejecting the request as
malformed. -/
theorem c10_absent_order_amount (now : ℤ) (store : List Discount) (ownerId : ℕ)
    (code : String) (d : Discount)
    (hc : code ≠ "")
    (hfind : findOneByCodeOwner store code ownerId = some d)
    (h1 : ¬ now < d.startDate) (h2 : ¬ now > d.endDate)
    (h3 : d.status = DStatus.active) (h4 : limitReached d = false)
    (_hmin : 0 < d.minOrder) (htype : d.type = DType.percentage) :
    (validateDiscountCode now store ownerId code OrderParam.absent).1
      = ⟨200, true, "Discount code is valid",
          RespData.valid JsNum.nan JsNum.nan⟩ := by
  unfold validateDiscountCode
  rw [if_neg hc, hfind]
  dsimp only
  rw [if_neg h1, if_neg h2, if_neg (by simp [h3]), if_neg (by simp [h4])]
  rw [if_neg (by simp [OrderParam.truthy])]
  unfold computeAmounts
  simp [htype, OrderParam.parsed, jsMul, jsDivC, jsGtQ, jsSub, jsMax0]

/-- Witness for C10: `dMinOrder` (minimum order 40, percentage type),
validated with no order amount. -/
theorem c10_witness :
    (validateDiscountCode 5 [dMinOrder] 1 "BIG50" OrderParam.absent).1
      = ⟨200, true, "Discount code is valid",
          RespData.valid JsNum.nan JsNum.nan⟩ :=
  c10_absent_order_amount 5 [dMinOrder] 1 "BIG50" dMinOrder (by decide) (by decide)
    (by decide) (by decide) (by decide) (by decide) (by decide) (by decide)

/-!
## Claim C6 — usage recording re-checks and its rejections
-/

/-- C6 counterexample (to "rejects identically"): on the same stored state
— the lapsed discount `dExp`, still marked `active` — validation step 3
rejects with the typed response "Discount has expired" carrying `endDate`,
while `recordUsage` rejects with the combined response "Discount is not
active" carrying no boundary value: both reject, but not identically. -/
theorem c6_counterexample :
    (validateDiscountCode 20 [dExp] 1 "EXP1" (OrderParam.given (JsNum.num 50))).1.success = false
    ∧ (updateDiscountUsage 20 [dExp] 4 (some 1) (some 50)).1.success = false
    ∧ (validateDiscountCode 20 [dExp] 1 "EXP1" (OrderParam.given (JsNum.num 50))).1
        ≠ (updateDiscountUsage 20 [dExp] 4 (some 1) (some 50)).1 := by
  decide

/-- C6 amended: `recordUsage` re-runs the same temporal and limit checks as
validation steps 2-5 against the currently stored state and accepts exactly
when they all pass; the three temporal/status failures collapse into the
single combined rejection "Discount is not active" (rather than the
validator's distinct typed rejections), while the limit failure rejects
with the response identical to the validator's LimitReached response; on
any rejection the store — hence `usedCount`, `ordersUsed`,
`revenueGenerated` and `status` of the record — is unchanged; on success
the stored record is the saved document with `usedCount` and `ordersUsed`
incremented by 1 and `revenueGenerated` incremented by `orderAmount`. -/
theorem c6_amended_recordUsage_checks
    (now : ℤ) (store : List Discount) (i : ℕ) (oid : ℕ) (amt : ℚ) (d : Discount)
    (hfind : findById store i = some d) :
    ((updateDiscountUsage now store i (some oid) (some amt)).1.success = true
      ↔ ¬(now < d.startDate ∨ now > d.endDate ∨ d.status ≠ DStatus.active
            ∨ limitReached d = true))
    ∧ ((now < d.startDate ∨ now > d.endDate ∨ d.status ≠ DStatus.active) →
        (updateDiscountUsage now store i (some oid) (some amt)).1
          = ⟨400, false, "Discount is not active", RespData.nothing⟩)
    ∧ (¬(now < d.startDate ∨ now > d.endDate ∨ d.status ≠ DStatus.active) →
        limitReached d = true →
        (updateDiscountUsage now store i (some oid) (some amt)).1
          = ⟨400, false, "Discount usage limit reached", RespData.nothing⟩)
    ∧ ((updateDiscountUsage now store i (some oid) (some amt)).1.success = false →
        (updateDiscountUsage now store i (some oid) (some amt)).2 = store)
    ∧ ((updateDiscountUsage now store i (some oid) (some amt)).1.success = true →
        (updateDiscountUsage now store i (some oid) (some amt)).2
            = replaceById store (usageCommit now d amt)
          ∧ (usageCommit now d amt).usedCount = d.usedCount + 1
          ∧ (usageCommit now d amt).ordersUsed = d.ordersUsed + 1
          ∧ (usageCommit now d amt).revenueGenerated = d.revenueGenerated + amt) := by
  unfold updateDiscountUsage
  simp only [hfind, Option.isNone_some, Bool.or_self, Bool.false_eq_true, if_false, reduceIte]
  by_cases hT : now < d.startDate ∨ now > d.endDate ∨ d.status ≠ DStatus.active
  · simp [hT]
    intro ha hb hs
    rcases hT with h | h | h
    · exact absurd h (not_lt.mpr ha)
    · exact absurd h (not_lt.mpr hb)
    · exact absurd hs h
  · by_cases hL : limitReached d = true
    · simp [hT, hL]
    · simp [hT, hL, usageCommit, preSave]

/-- Witness for the amended C6: the successful usage recording on
`dSample` at a concrete instant. -/
theorem c6_amended_witness :
    (((updateDiscountUsage 5 [dSample] 1 (some 2) (some 30)).1.success = true
      ↔ ¬((5:ℤ) < dSample.startDate ∨ (5:ℤ) > dSample.endDate
            ∨ dSample.status ≠ DStatus.active ∨ limitReached dSample = true))
    ∧ (((5:ℤ) < dSample.startDate ∨ (5:ℤ) > dSample.endDate
          ∨ dSample.status ≠ DStatus.active) →
        (updateDiscountUsage 5 [dSample] 1 (some 2) (some 30)).1
          = ⟨400, false, "Discount is not active", RespData.nothing⟩)
    ∧ (¬((5:ℤ) < dSample.startDate ∨ (5:ℤ) > dSample.endDate
          ∨ dSample.status ≠ DStatus.active) →
        limitReached dSample = true →
        (updateDiscountUsage 5 [dSample] 1 (some 2) (some 30)).1
          = ⟨400, false, "Discount usage limit reached", RespData.nothing⟩)
    ∧ ((updateDiscountUsage 5 [dSample] 1 (some 2) (some 30)).1.success = false →
        (updateDiscountUsage 5 [dSample] 1 (some 2) (some 30)).2 = [dSample])
    ∧ ((updateDiscountUsage 5 [dSample] 1 (some 2) (some 30)).1.success = true →
        (updateDiscountUsage 5 [dSample] 1 (some 2) (some 30)).2
            = replaceById [dSample] (usageCommit 5 dSample 30)
          ∧ (usageCommit 5 dSample 30).usedCount = dSample.usedCount + 1
          ∧ (usageCommit 5 dSample 30).ordersUsed = dSample.ordersUsed + 1
          ∧ (usageCommit 5 dSample 30).revenueGenerated
              = dSample.revenueGenerated + 30)) :=
  c6_amended_recordUsage_checks 5 [dSample] 1 2 30 dSample (by decide)

/-!
## Claim C7 — code uniqueness scope
-/

/-- C7 evaluation at the failing input.  Same-owner duplicate (claim's
first half, which the controller enforces): owner 1 re-registering
"SAVE10" is rejected with the DuplicateCode response before persistence and
the store is unchanged.  Cross-owner registration (claim's second half,
which fails): owner 2 registering the same code "SAVE10" passes the
owner-scoped application check but collides with the schema's GLOBAL unique
index on `code` at insert time — the request fails with the 500 catch-all
and nothing is persisted, contradicting the claim that two different owners
can each register the same code without collision. -/
theorem c7_code_bug_eval :
    ((createDiscount 5 [dOwner1Save10] 1 "SAVE10" inputB 11).1
        = ⟨400, false, "Discount code already exists for your shop", RespData.nothing⟩
      ∧ (createDiscount 5 [dOwner1Save10] 1 "SAVE10" inputB 11).2 = [dOwner1Save10])
    ∧ ((createDiscount 5 [dOwner1Save10] 2 "SAVE10" inputB 11).1
        = ⟨500, false, "Error creating discount", RespData.nothing⟩
      ∧ (createDiscount 5 [dOwner1Save10] 2 "SAVE10" inputB 11).2 = [dOwner1Save10]) := by
  decide

/-!
## Claim C8 — owner update must not touch createdBy and the accumulators
-/

/-- C8 counterexample: the owner update spreads the whole request body into
the `$set` document, so a PUT whose body contains `createdBy` and
`usedCount` rewrites both — `createdBy` is not immutable and the
accumulators are not reserved to the Usage Ledger when the body names
them. -/
theorem c8_counterexample :
    (updateDiscount 5 [dPlain] 2 3 { createdBy := some 9, usedCount := some 999 }).1.success = true
    ∧ findById (updateDiscount 5 [dPlain] 2 3
          { createdBy := some 9, usedCount := some 999 }).2 3
        = some { dPlain with createdBy := 9, usedCount := 999 }
    ∧ dPlain.createdBy = 2 ∧ dPlain.usedCount = 0 := by
  decide

/-- C8 amended: for every owner update whose request body does NOT contain
the fields `createdBy`, `usedCount`, `ordersUsed`, `revenueGenerated`, the
stored values of those four fields are unchanged by the update (on both the
rejection paths and the successful write). -/
theorem c8_amended_update_preserves_absent_fields
    (now : ℤ) (store : List Discount) (requester : ℕ) (i : ℕ) (b : UpdateBody)
    (d : Discount) (hfind : findById store i = some d)
    (h1 : b.createdBy = none) (h2 : b.usedCount = none)
    (h3 : b.ordersUsed = none) (h4 : b.revenueGenerated = none) :
    ∃ d', findById (updateDiscount now store requester i b).2 i = some d'
      ∧ d'.createdBy = d.createdBy ∧ d'.usedCount = d.usedCount
      ∧ d'.ordersUsed = d.ordersUsed ∧ d'.revenueGenerated = d.revenueGenerated := by
  have hpres : (applyUpdate b d).createdBy = d.createdBy
      ∧ (applyUpdate b d).usedCount = d.usedCount
      ∧ (applyUpdate b d).ordersUsed = d.ordersUsed
      ∧ (applyUpdate b d).revenueGenerated = d.revenueGenerated := by
    simp [applyUpdate, h1, h2, h3, h4]
  have hwrite : findById (replaceById store (applyUpdate b d)) i
      = some (applyUpdate b d) :=
    findById_replaceById store i d (applyUpdate b d) hfind (by simp [applyUpdate])
  unfold updateDiscount
  simp only [hfind]
  split_ifs
  · exact ⟨d, hfind, rfl, rfl, rfl, rfl⟩
  · cases hvd : validateDates now (b.startDate.getD d.startDate) (b.endDate.getD d.endDate) with
    | some msg =>
      simp only [hvd]
      exact ⟨d, hfind, rfl, rfl, rfl, rfl⟩
    | none =>
      simp only [hvd]
      exact ⟨applyUpdate b d, hwrite, hpres.1, hpres.2.1, hpres.2.2.1, hpres.2.2.2⟩
  · exact ⟨applyUpdate b d, hwrite, hpres.1, hpres.2.1, hpres.2.2.1, hpres.2.2.2⟩

/-- Witness for the amended C8: a body updating only `name` and `value` on
`dPlain`. -/
theorem c8_amended_witness :
    ∃ d', findById (updateDiscount 5 [dPlain] 2 3
            { name := some "renew", value := some 6 }).2 3 = some d'
      ∧ d'.createdBy = dPlain.createdBy ∧ d'.usedCount = dPlain.usedCount
      ∧ d'.ordersUsed = dPlain.ordersUsed
      ∧ d'.revenueGenerated = dPlain.revenueGenerated :=
  c8_amended_update_preserves_absent_fields 5 [dPlain] 2 3
    { name := some "renew", value := some 6 } dPlain (by decide) rfl rfl rfl rfl

/-!
## Claim C9 — concurrent usage recording
-/

/-- The limit-rejection path of `updateDiscountUsage`: a snapshot inside
its window with `active` status but an exhausted limit is rejected with the
LimitReached response and the store is unchanged. -/
theorem usage_limit_reject (now : ℤ) (store : List Discount) (i : ℕ)
    (oid : ℕ) (amt : ℚ) (d : Discount)
    (hfind : findById store i = some d)
    (hT : ¬(now < d.startDate ∨ now > d.endDate ∨ d.status ≠ DStatus.active))
    (hL : limitReached d = true) :
    updateDiscountUsage now store i (some oid) (some amt)
      = (⟨400, false, "Discount usage limit reached", RespData.nothing⟩, store) := by
  unfold updateDiscountUsage
  simp only [hfind, Option.isNone_some, Bool.or_self, Bool.false_eq_true, if_false, reduceIte]
  rw [if_neg hT, if_pos hL]

/-- Faithfulness of the split used by the interleaving model: one
`updateDiscountUsage` call whose snapshot passes the checks is exactly
"read the snapshot, then write back `usageCommit` of that snapshot". -/
theorem usage_decomposition (now : ℤ) (store : List Discount) (i : ℕ)
    (oid : ℕ) (amt : ℚ) (d : Discount)
    (hfind : findById store i = some d)
    (hpass : usagePasses now d = true) :
    updateDiscountUsage now store i (some oid) (some amt)
      = (⟨200, true, "Discount usage updated",
            RespData.usage (usageCommit now d amt).usedCount
              (usageCommit now d amt).remainingUses
              (usageCommit now d amt).revenueGenerated⟩,
          replaceById store (usageCommit now d amt)) := by
  have hp := hpass
  unfold usagePasses at hp
  simp only [Bool.and_eq_true, Bool.not_eq_true', Bool.or_eq_false_iff,
    decide_eq_false_iff_not] at hp
  unfold updateDiscountUsage
  simp only [hfind, Option.isNone_some, Bool.or_self, Bool.false_eq_true, if_false, reduceIte]
  rw [if_neg (by
    rintro (h | h | h)
    · exact hp.1.1.1 h
    · exact hp.1.1.2 h
    · exact hp.1.2 h)]
  rw [if_neg (by simp [hp.2])]
  rfl

/-- C9 counterexample: two concurrent `recordUsage` calls against the fresh
single-use discount `dFresh` (`usageLimit = 1`, `usedCount = 0`), under the
interleaving in which both calls read before either writes (possible
because the handler awaits between its `findById` read and its `save()`
write-back): BOTH calls succeed — not "exactly one succeeds and the other
rejects with LimitReached" — and the final store records only a single
redemption (the second write overwrites the first with the same snapshot
increment).  The limit re-check and the counter increment do not form one
atomic operation. -/
theorem c9_counterexample :
    dFresh.usageLimit = some 1
    ∧ (twoInterleavedUsages 5 [dFresh] 7 30).1 = (true, true)
    ∧ findById (twoInterleavedUsages 5 [dFresh] 7 30).2 7
        = some (usageCommit 5 dFresh 30) :=
  ⟨rfl, rfl, rfl⟩

/-- C9 amended: the limit is respected only sequentially: against a fresh
discount with `usageLimit = 1` inside its window, a first `recordUsage`
call succeeds, and a second call that runs after the first's write-back
rejects with LimitReached.  The source's read-then-save pattern provides no
atomicity, so interleaved calls can all succeed (see the counterexample). -/
theorem c9_amended_sequential_limit (now : ℤ) (store : List Discount) (i : ℕ)
    (oid : ℕ) (amt : ℚ) (d : Discount)
    (hfind : findById store i = some d)
    (hlim : d.usageLimit = some 1) (hused : d.usedCount = 0)
    (h1 : ¬ now < d.startDate) (h2 : ¬ now > d.endDate)
    (h3 : d.status = DStatus.active) :
    (updateDiscountUsage now store i (some oid) (some amt)).1.success = true
    ∧ (updateDiscountUsage now
          ((updateDiscountUsage now store i (some oid) (some amt)).2)
          i (some oid) (some amt)).1
        = ⟨400, false, "Discount usage limit reached", RespData.nothing⟩ := by
  have hL : limitReached d = false := by
    unfold limitReached
    rw [hlim, hused]
    decide
  have hpass : usagePasses now d = true := by
    unfold usagePasses
    simp [h1, h2, h3, hL]
  have hstep := usage_decomposition now store i oid amt d hfind hpass
  have hcid : (usageCommit now d amt).id = d.id := by
    simp [usageCommit, preSave]
  have hfind2 : findById (updateDiscountUsage now store i (some oid) (some amt)).2 i
      = some (usageCommit now d amt) := by
    rw [hstep]
    exact findById_replaceById store i d (usageCommit now d amt) hfind hcid
  constructor
  · rw [hstep]
  · have hcfields : (usageCommit now d amt).startDate = d.startDate
        ∧ (usageCommit now d amt).endDate = d.endDate
        ∧ (usageCommit now d amt).status = DStatus.active
        ∧ (usageCommit now d amt).usageLimit = some 1
        ∧ (usageCommit now d amt).usedCount = 1 := by
      refine ⟨rfl, rfl, ?_, by simp [usageCommit, preSave, hlim], by
        simp [usageCommit, preSave, hused]⟩
      simp [usageCommit, preSave, h3, h1, h2]
    have hL2 : limitReached (usageCommit now d amt) = true := by
      unfold limitReached
      rw [hcfields.2.2.2.1, hcfields.2.2.2.2]
      decide
    have hT2 : ¬(now < (usageCommit now d amt).startDate
        ∨ now > (usageCommit now d amt).endDate
        ∨ (usageCommit now d amt).status ≠ DStatus.active) := by
      rintro (h | h | h)
      · rw [hcfields.1] at h; exact h1 h
      · rw [hcfields.2.1] at h; exact h2 h
      · exact h hcfields.2.2.1
    rw [usage_limit_reject now ((updateDiscountUsage now store i (some oid) (some amt)).2)
      i oid amt (usageCommit now d amt) hfind2 hT2 hL2]

/-- Witness for the amended C9: two sequential usage calls on `dFresh`. -/
theorem c9_amended_witness :
    (updateDiscountUsage 5 [dFresh] 7 (some 1) (some 30)).1.success = true
    ∧ (updateDiscountUsage 5
          ((updateDiscountUsage 5 [dFresh] 7 (some 1) (some 30)).2)
          7 (some 1) (some 30)).1
        = ⟨400, false, "Discount usage limit reached", RespData.nothing⟩ :=
  c9_amended_sequential_limit 5 [dFresh] 7 1 30 dFresh (by decide) (by decide)
    (by decide) (by decide) (by decide) (by decide)
